import Mathlib

/- A shallow embedding of src/lib/FreeRTOS/platform/freertos/transport/src/tls_freertos_pkcs11.c.
   External collaborators (the mbedTLS engine, the PKCS11 token, the socket layer) are modelled
   as oracle structures whose fields hold the results those collaborators return on each call.
   The control flow, status propagation and observable side effects of each C function are
   translated directly from the source.  Helper routines that the source calls but whose
   definitions live outside src (corePKCS11 utilities and configuration constants) are modelled
   from the specification; each such definition carries a doc comment saying so. -/

namespace TlsFreertos

/-- PKCS11 return value CKR_OK (0). -/
def CKR_OK : Nat := 0

/-- PKCS11 return value CKR_HOST_MEMORY (0x02). -/
def CKR_HOST_MEMORY : Nat := 2

/-- PKCS11 return value CKR_FUNCTION_FAILED (0x06), the OperationFailed code of the spec. -/
def CKR_FUNCTION_FAILED : Nat := 6

/-- PKCS11 return value CKR_ARGUMENTS_BAD (0x07), the ArgumentsBad code of the spec. -/
def CKR_ARGUMENTS_BAD : Nat := 7

/-- PKCS11 return value CKR_ATTRIBUTE_VALUE_INVALID (0x13). -/
def CKR_ATTRIBUTE_VALUE_INVALID : Nat := 19

/-- PKCS11 return value CKR_OBJECT_HANDLE_INVALID (0x82), the ObjectNotFound code of the spec. -/
def CKR_OBJECT_HANDLE_INVALID : Nat := 130

/-- PKCS11 CK_INVALID_HANDLE (0). -/
def CK_INVALID_HANDLE : Nat := 0

/-- PKCS11 key type CKK_RSA (0x00). -/
def CKK_RSA : Nat := 0

/-- PKCS11 key type CKK_EC (0x03). -/
def CKK_EC : Nat := 3

/-- PKCS11 mechanism CKM_RSA_PKCS (0x01). -/
def CKM_RSA_PKCS : Nat := 1

/-- PKCS11 mechanism CKM_ECDSA (0x1041). -/
def CKM_ECDSA : Nat := 4161

/-- Modelled from the spec: the expected raw length of a P-256 token signature, 32 bytes of R
followed by 32 bytes of S (the constant pkcs11ECDSA_P256_SIGNATURE_LENGTH is defined in a
corePKCS11 header that is not under src). -/
def pkcs11ECDSA_P256_SIGNATURE_LENGTH : Nat := 64

/-- mbedTLS result MBEDTLS_ERR_SSL_WANT_READ (-0x6900). -/
def MBEDTLS_ERR_SSL_WANT_READ : Int := -26880

/-- mbedTLS result MBEDTLS_ERR_SSL_WANT_WRITE (-0x6880). -/
def MBEDTLS_ERR_SSL_WANT_WRITE : Int := -26752

/-- mbedTLS result MBEDTLS_ERR_SSL_TIMEOUT (-0x6800). -/
def MBEDTLS_ERR_SSL_TIMEOUT : Int := -26624

/-- Size of the fixed stack working buffer xToBeSigned in privateKeySigningCallback. -/
def xToBeSignedSize : Nat := 256

/-- Model of a C memcpy of n bytes from src into the front of dst: the first n bytes of src
followed by whatever of dst lies beyond the copied region.  When n exceeds the length of dst the
resulting list is longer than dst, which is how a buffer overflow shows up in the model. -/
def memcpyBytes (dst src : List Nat) (n : Nat) : List Nat :=
  src.take n ++ dst.drop n

/-- Modelled from the spec: the fixed DigestInfo byte sequence identifying SHA-256, written in
front of a raw hash before RSA PKCS1 v1.5 signing (the sequence itself is defined in the
corePKCS11 utility sources, which are not under src). -/
def sha256OidSequence : List Nat :=
  [48, 49, 48, 13, 6, 9, 96, 134, 72, 1, 101, 3, 4, 2, 1, 5, 0, 4, 32]

/-- Modelled from the spec: vAppendSHA256AlgorithmIdentifierSequence, declared in
core_pki_utils.h but implemented outside src, writes the fixed SHA-256 DigestInfo identifier
followed by the caller hash into the destination buffer and reports CKR_OK.  The first component
is the returned CK_RV, the second the resulting buffer contents. -/
def vAppendSHA256AlgorithmIdentifierSequence (hash buf : List Nat) : Nat × List Nat :=
  (CKR_OK, memcpyBytes buf (sha256OidSequence ++ hash) (sha256OidSequence ++ hash).length)

/-- Modelled from the spec: pkcs11RSA_SIGNATURE_INPUT_LENGTH, the length of the padded RSA
signing input handed to the token, namely the DigestInfo identifier followed by the hash (the
defining corePKCS11 header is not under src; the spec describes the padded buffer as the fixed
prefix with the original hash as its trailing bytes). -/
def pkcs11RSA_SIGNATURE_INPUT_LENGTH (hashLen : Nat) : Nat :=
  sha256OidSequence.length + hashLen

/-- Modelled from the spec: the DER content bytes of an INTEGER holding a big-endian unsigned
value: leading zero bytes are stripped, an all-zero value is the single byte 0, and a leading
byte with its high bit set gains one 0x00 byte in front (leading-zero handling for high-bit-set
integers). -/
def derIntegerContent (bytes : List Nat) : List Nat :=
  let stripped := bytes.dropWhile (· = 0)
  let core := if stripped = [] then [0] else stripped
  if 128 ≤ core.headD 0 then 0 :: core else core

/-- Modelled from the spec: a full DER INTEGER, tag 0x02 then the content length then the
content bytes. -/
def derInteger (bytes : List Nat) : List Nat :=
  let c := derIntegerContent bytes
  2 :: c.length :: c

/-- Modelled from the spec: PKI_pkcs11SignatureTombedTLSSignature, declared in core_pki_utils.h
but implemented outside src, re-encodes a 64-byte raw P-256 token signature (32-byte R followed
by 32-byte S) as the ASN.1 DER SEQUENCE (tag 0x30) of the two INTEGERs R and S. -/
def PKI_pkcs11SignatureTombedTLSSignature (raw : List Nat) : List Nat :=
  let r := derInteger (raw.take 32)
  let s := derInteger ((raw.drop 32).take 32)
  48 :: (r.length + s.length) :: (r ++ s)

/-- Oracle for the PKCS11 token calls made by privateKeySigningCallback: the results of
C_SignInit and C_Sign, the signature bytes C_Sign writes into pucSig and the length it writes
through pxSigLen. -/
structure P11SignOracle where
  signInitRv : Nat
  signRv : Nat
  signOut : List Nat
  signOutLen : Nat

/-- Observable outcome of one privateKeySigningCallback invocation: the int return value, the
final CK_RV, whether and how C_SignInit and C_Sign were invoked, the final contents of the
xToBeSigned working buffer, and the signature bytes and length left in the output arguments
(none when never written). -/
structure SignCallbackResult where
  ret : Int
  finalRv : Nat
  signInitCalled : Bool
  signInitMech : Option Nat
  signCalled : Bool
  signInput : Option (List Nat)
  toBeSigned : List Nat
  sigBytes : Option (List Nat)
  sigLen : Option Nat
  converted : Bool

/-- Model of privateKeySigningCallback (tls_freertos_pkcs11.c lines 694-786).  Arguments:
the token oracle, the cached key type xKeyType of the SSL context, the unused digest algorithm
hint xMdAlg, the caller hash (its list length is xHashLen) and the initial contents of the
256-byte stack buffer xToBeSigned.  The sanity check sets CKR_ARGUMENTS_BAD for an overlong
hash; the RSA branch then assigns the vAppendSHA256AlgorithmIdentifierSequence result to
xResult (overwriting the sanity-check result, as the source does) while the EC branch copies
the hash into the working buffer unconditionally and keeps the sanity-check result. -/
def privateKeySigningCallback (o : P11SignOracle) (keyType mdAlg : Nat)
    (hash buf0 : List Nat) : SignCallbackResult :=
  let sanityRv : Nat := if xToBeSignedSize < hash.length then CKR_ARGUMENTS_BAD else CKR_OK
  let rvFmt : Nat :=
    if keyType = CKK_RSA then (vAppendSHA256AlgorithmIdentifierSequence hash buf0).1
    else if keyType = CKK_EC then sanityRv
    else CKR_ARGUMENTS_BAD
  let mech : Nat :=
    if keyType = CKK_RSA then CKM_RSA_PKCS
    else if keyType = CKK_EC then CKM_ECDSA
    else 0
  let toBeSigned : List Nat :=
    if keyType = CKK_RSA then (vAppendSHA256AlgorithmIdentifierSequence hash buf0).2
    else if keyType = CKK_EC then memcpyBytes buf0 hash hash.length
    else buf0
  let toBeSignedLen : Nat :=
    if keyType = CKK_RSA then pkcs11RSA_SIGNATURE_INPUT_LENGTH hash.length
    else if keyType = CKK_EC then hash.length
    else xToBeSignedSize
  let rvInit : Nat := if rvFmt = CKR_OK then o.signInitRv else rvFmt
  let rvSign : Nat := if rvInit = CKR_OK then o.signRv else rvInit
  let sigBytesAfterSign : Option (List Nat) := if rvInit = CKR_OK then some o.signOut else none
  let sigLenAfterSign : Option Nat := if rvInit = CKR_OK then some o.signOutLen else none
  let ecConvert : Prop :=
    rvSign = CKR_OK ∧ keyType = CKK_EC ∧ o.signOutLen = pkcs11ECDSA_P256_SIGNATURE_LENGTH
  let rvFinal : Nat :=
    if rvSign = CKR_OK ∧ keyType = CKK_EC then
      if o.signOutLen = pkcs11ECDSA_P256_SIGNATURE_LENGTH then CKR_OK else CKR_FUNCTION_FAILED
    else rvSign
  { ret := if rvFinal = CKR_OK then 0 else -1
    finalRv := rvFinal
    signInitCalled := if rvFmt = CKR_OK then true else false
    signInitMech := if rvFmt = CKR_OK then some mech else none
    signCalled := if rvInit = CKR_OK then true else false
    signInput := if rvInit = CKR_OK then some (toBeSigned.take toBeSignedLen) else none
    toBeSigned := toBeSigned
    sigBytes :=
      if ecConvert then some (PKI_pkcs11SignatureTombedTLSSignature o.signOut)
      else sigBytesAfterSign
    sigLen :=
      if ecConvert then some (PKI_pkcs11SignatureTombedTLSSignature o.signOut).length
      else sigLenAfterSign
    converted := if ecConvert then true else false }

/-- Status enumeration TlsTransportStatus_t returned by the transport functions. -/
inductive TlsTransportStatus where
  | SUCCESS
  | INVALID_PARAMETER
  | INSUFFICIENT_MEMORY
  | INVALID_CREDENTIALS
  | HANDSHAKE_FAILED
  | CONNECT_FAILURE
  | INTERNAL_ERROR
  deriving DecidableEq

/-- Oracle for the token calls made by readCertificateIntoContext: the result and handle
reported by xFindObjectWithLabelAndClass for the (label, class) pair, the results of the two
C_GetAttributeValue calls (size probe and fill), the object size the probe reports, whether
pvPortMalloc succeeds, and the int result of mbedtls_x509_crt_parse on the exported bytes. -/
structure ReadCertOracle where
  findRv : Nat
  findHandle : Nat
  probeRv : Nat
  probeSize : Nat
  mallocOk : Bool
  fillRv : Nat
  parseRv : Int

/-- Observable outcome of readCertificateIntoContext: the returned CK_RV (a negative int parse
result is converted to the unsigned CK_RV type, as the C assignment does), which token calls
were made, the probe arguments (pValue-is-null flag together with the requested length), the
allocation size, and whether the temporary buffer was released (vPortFree runs on every exit
path in the source). -/
structure ReadCertEffects where
  result : Nat
  probeArgs : Option (Bool × Nat)
  mallocCalled : Bool
  mallocSize : Nat
  bufferAllocated : Bool
  fillCalled : Bool
  parseCalled : Bool
  bufferFreed : Bool

/-- Model of readCertificateIntoContext (lines 510-574): resolve the object handle, turn a
successful lookup that yields CK_INVALID_HANDLE into CKR_OBJECT_HANDLE_INVALID, probe the value
size with a null pValue and zero requested length, allocate a buffer of exactly the reported
size (CKR_HOST_MEMORY when allocation fails), re-issue the attribute read to fill it, parse the
certificate, and free the buffer unconditionally at the end. -/
def readCertificateIntoContext (o : ReadCertOracle) : ReadCertEffects :=
  let r1 := o.findRv
  let r2 := if r1 = CKR_OK ∧ o.findHandle = CK_INVALID_HANDLE then CKR_OBJECT_HANDLE_INVALID
            else r1
  let r3 := if r2 = CKR_OK then o.probeRv else r2
  let r4 := if r3 = CKR_OK then (if o.mallocOk then CKR_OK else CKR_HOST_MEMORY) else r3
  let r5 := if r4 = CKR_OK then o.fillRv else r4
  let r6 := if r5 = CKR_OK then (o.parseRv % (2 ^ 32 : Int)).toNat else r5
  { result := r6
    probeArgs := if r2 = CKR_OK then some (true, 0) else none
    mallocCalled := if r3 = CKR_OK then true else false
    mallocSize := o.probeSize
    bufferAllocated := if r3 = CKR_OK ∧ o.mallocOk then true else false
    fillCalled := if r4 = CKR_OK then true else false
    parseCalled := if r5 = CKR_OK then true else false
    bufferFreed := true }

/-- Oracle for the token calls made by initializeClientKeys: the two C_GetSlotList results,
whether the slot-id allocation succeeds, the C_Login result, the private-key lookup result and
handle, the C_GetAttributeValue result for the key-type query, and the CK_KEY_TYPE value it
stores. -/
structure ClientKeysOracle where
  getSlotCountRv : Nat
  slotMallocOk : Bool
  getSlotListRv : Nat
  loginRv : Nat
  findKeyRv : Nat
  findKeyHandle : Nat
  getKeyTypeRv : Nat
  keyTypeValue : Nat

/-- Model of initializeClientKeys (lines 586-690), returning the CK_RV the function returns.
The source assigns CK_INVALID_HANDLE to xResult when the private-key lookup succeeds but yields
an invalid handle; that constant is 0, the same value as CKR_OK, and the model keeps that
assignment as written. -/
def initializeClientKeys (o : ClientKeysOracle) : Nat :=
  let r1 := o.getSlotCountRv
  let r2 := if r1 = CKR_OK then (if o.slotMallocOk then CKR_OK else CKR_HOST_MEMORY) else r1
  let r3 := if r2 = CKR_OK then o.getSlotListRv else r2
  let r4 := if r3 = CKR_OK then o.loginRv else r3
  let r5 := if r4 = CKR_OK then o.findKeyRv else r4
  let r6 := if r5 = CKR_OK ∧ o.findKeyHandle = CK_INVALID_HANDLE then CK_INVALID_HANDLE else r5
  let r7 := if r6 = CKR_OK then o.getKeyTypeRv else r6
  if r7 = CKR_OK then
    if o.keyTypeValue = CKK_RSA ∨ o.keyTypeValue = CKK_EC then CKR_OK
    else CKR_ATTRIBUTE_VALUE_INVALID
  else r7

/-- Caller-supplied credential flags consulted by tlsSetup: whether an ALPN protocol list was
supplied and whether SNI was disabled. -/
structure NetworkCredentials where
  alpnPresent : Bool
  disableSni : Bool

/-- Oracle for the engine and token calls made by tlsSetup: the mbedtls_ssl_config_defaults
result, the mbedtls_x509_crt_parse result on the trust-anchor bytes, the oracles of the two
helper routines, the ALPN, ssl_setup and set_hostname results, and the successive results of
mbedtls_ssl_handshake. -/
structure TlsSetupOracle where
  configDefaultsRv : Int
  crtParseRv : Int
  clientKeys : ClientKeysOracle
  readCert : ReadCertOracle
  alpnRv : Int
  sslSetupRv : Int
  setHostnameRv : Int
  handshakeTrace : List Int

/-- Model of the do-while handshake loop (lines 439-443): the list holds the successive results
of mbedtls_ssl_handshake; the loop retries past WANT_READ and WANT_WRITE results and stops at
the first other result.  An exhausted list stands for a handshake that eventually reported 0. -/
def runHandshake : List Int → Int
  | [] => 0
  | r :: rest =>
      if r = MBEDTLS_ERR_SSL_WANT_READ ∨ r = MBEDTLS_ERR_SSL_WANT_WRITE then runHandshake rest
      else r

/-- Observable outcome of tlsSetup: the returned status, the per-resource release flags of
sslContextFree (engine state, both certificate chains, configuration, token session) and
whether the relaxed certificate profile for the legacy-endpoint carve-out was selected. -/
structure SetupEffects where
  status : TlsTransportStatus
  sessionOpened : Bool
  certProfileRelaxed : Bool
  sslFreed : Bool
  rootCaFreed : Bool
  clientCertFreed : Bool
  configFreed : Bool
  sessionClosed : Bool

/-- Status computation of tlsSetup (lines 252-466): the pipeline stages run in source order,
each stage only when every earlier stage succeeded, and each failure is classified at the point
of detection. -/
def tlsSetupStatus (o : TlsSetupOracle) (creds : NetworkCredentials) : TlsTransportStatus :=
  let s1 : TlsTransportStatus :=
    if o.configDefaultsRv ≠ 0 then .INSUFFICIENT_MEMORY else .SUCCESS
  let s2 :=
    if s1 = .SUCCESS then
      if o.crtParseRv ≠ 0 then .INVALID_CREDENTIALS else .SUCCESS
    else s1
  let s3 :=
    if s2 = .SUCCESS then
      if initializeClientKeys o.clientKeys ≠ CKR_OK then .INVALID_CREDENTIALS
      else if (readCertificateIntoContext o.readCert).result ≠ CKR_OK then .INVALID_CREDENTIALS
      else .SUCCESS
    else s2
  let s4 :=
    if s3 = .SUCCESS ∧ creds.alpnPresent = true then
      if o.alpnRv ≠ 0 then .INTERNAL_ERROR else .SUCCESS
    else s3
  let s5 :=
    if s4 = .SUCCESS then
      if o.sslSetupRv ≠ 0 then .INTERNAL_ERROR else .SUCCESS
    else s4
  let s6 :=
    if s5 = .SUCCESS ∧ creds.disableSni = false then
      if o.setHostnameRv ≠ 0 then .INTERNAL_ERROR else .SUCCESS
    else s5
  let s7 :=
    if s6 = .SUCCESS then
      if runHandshake o.handshakeTrace ≠ 0 then .HANDSHAKE_FAILED else .SUCCESS
    else s6
  s7

/-- Model of tlsSetup (lines 252-466).  sslContextInit opens the token session; the stages run
as computed by tlsSetupStatus; on any non-success status sslContextFree releases the engine
state, both certificate chains and the configuration and closes the token session.  The
hostMatchesMosquitto flag stands for the strncmp comparison of the hostname against the legacy
allowlist entry (lines 288-295), which only relaxes the certificate profile. -/
def tlsSetup (o : TlsSetupOracle) (hostMatchesMosquitto : Bool) (creds : NetworkCredentials) :
    SetupEffects :=
  let s := tlsSetupStatus o creds
  let teardown : Bool := if s = .SUCCESS then false else true
  { status := s
    sessionOpened := true
    certProfileRelaxed := hostMatchesMosquitto
    sslFreed := teardown
    rootCaFreed := teardown
    clientCertFreed := teardown
    configFreed := teardown
    sessionClosed := teardown }

/-- Nullability of the caller arguments of TLS_FreeRTOS_Connect, plus the credential flags
forwarded to tlsSetup. -/
structure ConnectInput where
  networkContextNull : Bool
  hostNameNull : Bool
  credentialsNull : Bool
  rootCaNull : Bool
  alpnPresent : Bool
  disableSni : Bool

/-- Oracle for the collaborator calls made by TLS_FreeRTOS_Connect: the Sockets_Connect
result, whether the socket field holds a non-invalid value when Sockets_Connect failed, the
legacy-hostname comparison, and the tlsSetup oracle. -/
structure ConnectOracle where
  socketsConnectRv : Int
  socketValidOnFailure : Bool
  hostMatchesMosquitto : Bool
  setup : TlsSetupOracle

/-- Observable outcome of TLS_FreeRTOS_Connect: the returned status, whether Sockets_Connect
was attempted and succeeded, whether the failure path closed the socket, whether initMbedtls
installed the process-wide threading hooks (and that connect never removes them), whether
tlsSetup ran, and whether the token session was closed by the setup failure path. -/
structure ConnectEffects where
  status : TlsTransportStatus
  socketConnectCalled : Bool
  socketOpened : Bool
  socketClosed : Bool
  threadingAltInstalled : Bool
  threadingAltFreed : Bool
  tlsSetupRun : Bool
  sessionClosed : Bool

/-- Model of TLS_FreeRTOS_Connect (lines 790-868): null checks first (the trust-anchor check
only runs when the first three pointers are present, as in the else-if chain), then
Sockets_Connect, then initMbedtls (which installs the mbedTLS threading hooks and always
reports success), then tlsSetup; on a non-success status the socket is closed when the network
context is present and the socket value is not FREERTOS_INVALID_SOCKET. -/
def TLS_FreeRTOS_Connect (inp : ConnectInput) (o : ConnectOracle) : ConnectEffects :=
  let paramBad : Bool := inp.networkContextNull || inp.hostNameNull || inp.credentialsNull
  let s0 : TlsTransportStatus :=
    if paramBad then .INVALID_PARAMETER
    else if inp.rootCaNull then .INVALID_PARAMETER
    else .SUCCESS
  let s1 :=
    if s0 = .SUCCESS then
      if o.socketsConnectRv ≠ 0 then .CONNECT_FAILURE else .SUCCESS
    else s0
  let socketOpened : Bool := if s0 = .SUCCESS ∧ o.socketsConnectRv = 0 then true else false
  let threadingInstalled : Bool := if s1 = .SUCCESS then true else false
  let setupEff := tlsSetup o.setup o.hostMatchesMosquitto
      { alpnPresent := inp.alpnPresent, disableSni := inp.disableSni }
  let s2 := if s1 = .SUCCESS then setupEff.status else s1
  let socketValid : Bool := if socketOpened = true then true else o.socketValidOnFailure
  { status := s2
    socketConnectCalled := if s0 = .SUCCESS then true else false
    socketOpened := socketOpened
    socketClosed :=
      if s2 ≠ .SUCCESS ∧ inp.networkContextNull = false ∧ socketValid = true then true
      else false
    threadingAltInstalled := threadingInstalled
    threadingAltFreed := false
    tlsSetupRun := if s1 = .SUCCESS then true else false
    sessionClosed := if s1 = .SUCCESS then setupEff.sessionClosed else false }

/-- Classification of the close-notify result that TLS_FreeRTOS_Disconnect logs. -/
inductive CloseNotifyLog where
  | sentOk
  | failedError
  | wouldBlockInfo
  deriving DecidableEq

/-- Observable outcome of TLS_FreeRTOS_Disconnect. -/
structure DisconnectEffects where
  closeNotifyLog : CloseNotifyLog
  socketClosed : Bool
  sslFreed : Bool
  rootCaFreed : Bool
  clientCertFreed : Bool
  configFreed : Bool
  sessionClosed : Bool
  threadingAltFreed : Bool

/-- Model of TLS_FreeRTOS_Disconnect (lines 872-911): the close-notify result only selects a
log classification (WANT_READ and WANT_WRITE are logged as ignorable, zero as success sent,
anything else as an error); Sockets_Disconnect always runs, sslContextFree always runs (freeing
the engine state, both certificate chains and the configuration and closing the token session),
and mbedtls_threading_free_alt always removes the threading hooks. -/
def TLS_FreeRTOS_Disconnect (closeNotifyRv : Int) : DisconnectEffects :=
  let log : CloseNotifyLog :=
    if closeNotifyRv ≠ MBEDTLS_ERR_SSL_WANT_READ ∧ closeNotifyRv ≠ MBEDTLS_ERR_SSL_WANT_WRITE
    then (if closeNotifyRv = 0 then .sentOk else .failedError)
    else .wouldBlockInfo
  { closeNotifyLog := log
    socketClosed := true
    sslFreed := true
    rootCaFreed := true
    clientCertFreed := true
    configFreed := true
    sessionClosed := true
    threadingAltFreed := true }

/-- Model of TLS_FreeRTOS_recv (lines 915-950) as a function of the mbedtls_ssl_read result:
timeout and would-block results become 0, other negative results and nonnegative byte counts
are returned unchanged. -/
def TLS_FreeRTOS_recv (sslReadRv : Int) : Int :=
  if sslReadRv = MBEDTLS_ERR_SSL_TIMEOUT ∨ sslReadRv = MBEDTLS_ERR_SSL_WANT_READ ∨
      sslReadRv = MBEDTLS_ERR_SSL_WANT_WRITE then 0
  else if sslReadRv < 0 then sslReadRv
  else sslReadRv

/-- Model of TLS_FreeRTOS_send (lines 954-989) as a function of the mbedtls_ssl_write result:
timeout and would-block results become 0, other negative results and nonnegative byte counts
are returned unchanged. -/
def TLS_FreeRTOS_send (sslWriteRv : Int) : Int :=
  if sslWriteRv = MBEDTLS_ERR_SSL_TIMEOUT ∨ sslWriteRv = MBEDTLS_ERR_SSL_WANT_READ ∨
      sslWriteRv = MBEDTLS_ERR_SSL_WANT_WRITE then 0
  else if sslWriteRv < 0 then sslWriteRv
  else sslWriteRv

/-- Lists: taking the length of the left summand from an append returns it unchanged. -/
theorem take_length_append (l r : List Nat) : (l ++ r).take l.length = l := by
  induction l with
  | nil => rfl
  | cons a t ih => simp [ih]

/-- Lists: taking the combined length of the two left summands from a right-nested append
returns their concatenation. -/
theorem take_sum_append (l r rest : List Nat) :
    (l ++ (r ++ rest)).take (l.length + r.length) = l ++ r := by
  rw [← List.append_assoc, ← List.length_append]
  exact take_length_append (l ++ r) rest

/-- Projection helper: the status field of tlsSetup is tlsSetupStatus. -/
theorem tlsSetup_status_eq (o : TlsSetupOracle) (m : Bool) (c : NetworkCredentials) :
    (tlsSetup o m c).status = tlsSetupStatus o c := by
  dsimp only [tlsSetup]

/-- Projection helper: each resource release flag of tlsSetup equals the teardown condition on
the computed status. -/
theorem tlsSetup_teardown_eq (o : TlsSetupOracle) (m : Bool) (c : NetworkCredentials) :
    (tlsSetup o m c).sslFreed =
        (if tlsSetupStatus o c = TlsTransportStatus.SUCCESS then false else true) ∧
    (tlsSetup o m c).rootCaFreed =
        (if tlsSetupStatus o c = TlsTransportStatus.SUCCESS then false else true) ∧
    (tlsSetup o m c).clientCertFreed =
        (if tlsSetupStatus o c = TlsTransportStatus.SUCCESS then false else true) ∧
    (tlsSetup o m c).configFreed =
        (if tlsSetupStatus o c = TlsTransportStatus.SUCCESS then false else true) ∧
    (tlsSetup o m c).sessionClosed =
        (if tlsSetupStatus o c = TlsTransportStatus.SUCCESS then false else true) := by
  refine ⟨?_, ?_, ?_, ?_, ?_⟩ <;> dsimp only [tlsSetup]

/-- C2: for every invocation of privateKeySigningCallback with cached key type CKK_RSA and hash
length at most 256 bytes, sign-init is invoked with mechanism CKM_RSA_PKCS, and whenever
C_SignInit succeeds the buffer handed to C_Sign is exactly the fixed SHA-256 DigestInfo
identifier followed by the caller hash (so the identifier is its front and the original hash its
trailing bytes). -/
theorem privateKeySigningCallback_rsa_digestinfo_padding
    (o : P11SignOracle) (mdAlg : Nat) (hash buf0 : List Nat)
    (hlen : hash.length ≤ 256) :
    (privateKeySigningCallback o CKK_RSA mdAlg hash buf0).signInitCalled = true ∧
    (privateKeySigningCallback o CKK_RSA mdAlg hash buf0).signInitMech = some CKM_RSA_PKCS ∧
    (o.signInitRv = CKR_OK →
      (privateKeySigningCallback o CKK_RSA mdAlg hash buf0).signCalled = true ∧
      (privateKeySigningCallback o CKK_RSA mdAlg hash buf0).signInput =
        some (sha256OidSequence ++ hash)) := by
  refine ⟨by simp [privateKeySigningCallback, vAppendSHA256AlgorithmIdentifierSequence, CKR_OK],
         by simp [privateKeySigningCallback, vAppendSHA256AlgorithmIdentifierSequence, CKR_OK],
         ?_⟩
  intro hInit
  constructor
  · simp [privateKeySigningCallback, vAppendSHA256AlgorithmIdentifierSequence, CKR_OK, hInit]
  · simp [privateKeySigningCallback, vAppendSHA256AlgorithmIdentifierSequence,
      pkcs11RSA_SIGNATURE_INPUT_LENGTH, memcpyBytes, CKR_OK, hInit, take_sum_append]

/-- Witness for C2 at a concrete 32-byte hash and a successful token. -/
theorem privateKeySigningCallback_rsa_digestinfo_padding_witness :
    (List.replicate 32 7).length ≤ 256 ∧
    (privateKeySigningCallback ⟨CKR_OK, CKR_OK, List.replicate 256 1, 256⟩ CKK_RSA 0
        (List.replicate 32 7) (List.replicate 256 0)).signInitMech = some CKM_RSA_PKCS ∧
    (privateKeySigningCallback ⟨CKR_OK, CKR_OK, List.replicate 256 1, 256⟩ CKK_RSA 0
        (List.replicate 32 7) (List.replicate 256 0)).signInput =
      some (sha256OidSequence ++ List.replicate 32 7) :=
  ⟨by decide,
   (privateKeySigningCallback_rsa_digestinfo_padding
      ⟨CKR_OK, CKR_OK, List.replicate 256 1, 256⟩ 0
      (List.replicate 32 7) (List.replicate 256 0) (by decide)).2.1,
   ((privateKeySigningCallback_rsa_digestinfo_padding
      ⟨CKR_OK, CKR_OK, List.replicate 256 1, 256⟩ 0
      (List.replicate 32 7) (List.replicate 256 0) (by decide)).2.2 rfl).2⟩

/-- C3: for every invocation of privateKeySigningCallback with cached key type CKK_EC in which
C_SignInit and C_Sign both succeed: when the token reports a signature length of exactly 64
bytes the output is re-encoded as the DER SEQUENCE of the two INTEGERs taken from the 32-byte
halves of the raw signature; for any other reported length the callback finishes with
CKR_FUNCTION_FAILED, returns -1 and performs no conversion. -/
theorem privateKeySigningCallback_ec_signature_reencoding
    (o : P11SignOracle) (mdAlg : Nat) (hash buf0 : List Nat)
    (hlen : hash.length ≤ 256)
    (hInit : o.signInitRv = CKR_OK) (hSign : o.signRv = CKR_OK) :
    (o.signOutLen = pkcs11ECDSA_P256_SIGNATURE_LENGTH →
      (privateKeySigningCallback o CKK_EC mdAlg hash buf0).ret = 0 ∧
      (privateKeySigningCallback o CKK_EC mdAlg hash buf0).converted = true ∧
      (privateKeySigningCallback o CKK_EC mdAlg hash buf0).sigBytes =
        some (PKI_pkcs11SignatureTombedTLSSignature o.signOut) ∧
      (privateKeySigningCallback o CKK_EC mdAlg hash buf0).sigLen =
        some (PKI_pkcs11SignatureTombedTLSSignature o.signOut).length) ∧
    (o.signOutLen ≠ pkcs11ECDSA_P256_SIGNATURE_LENGTH →
      (privateKeySigningCallback o CKK_EC mdAlg hash buf0).ret = -1 ∧
      (privateKeySigningCallback o CKK_EC mdAlg hash buf0).finalRv = CKR_FUNCTION_FAILED ∧
      (privateKeySigningCallback o CKK_EC mdAlg hash buf0).converted = false ∧
      (privateKeySigningCallback o CKK_EC mdAlg hash buf0).sigBytes = some o.signOut) := by
  have hsan : ¬ (xToBeSignedSize < hash.length) := by
    simpa [xToBeSignedSize] using Nat.not_lt.mpr hlen
  constructor
  · intro h64
    simp [privateKeySigningCallback, CKK_EC, CKK_RSA, CKR_OK, hsan, hInit, hSign, h64]
  · intro hne
    simp [privateKeySigningCallback, CKK_EC, CKK_RSA, CKR_OK, CKR_FUNCTION_FAILED,
      hsan, hInit, hSign, hne]

/-- Witness for C3 at a concrete 32-byte hash, a successful token and a 64-byte raw
signature. -/
theorem privateKeySigningCallback_ec_signature_reencoding_witness :
    (List.replicate 32 7).length ≤ 256 ∧
    (⟨CKR_OK, CKR_OK, List.replicate 64 9, 64⟩ : P11SignOracle).signInitRv = CKR_OK ∧
    (⟨CKR_OK, CKR_OK, List.replicate 64 9, 64⟩ : P11SignOracle).signRv = CKR_OK ∧
    ((privateKeySigningCallback ⟨CKR_OK, CKR_OK, List.replicate 64 9, 64⟩ CKK_EC 0
        (List.replicate 32 7) (List.replicate 256 0)).ret = 0 ∧
      (privateKeySigningCallback ⟨CKR_OK, CKR_OK, List.replicate 64 9, 64⟩ CKK_EC 0
        (List.replicate 32 7) (List.replicate 256 0)).sigBytes =
        some (PKI_pkcs11SignatureTombedTLSSignature (List.replicate 64 9))) :=
  ⟨by decide, rfl, rfl, by
    have h := (privateKeySigningCallback_ec_signature_reencoding
      ⟨CKR_OK, CKR_OK, List.replicate 64 9, 64⟩ 0
      (List.replicate 32 7) (List.replicate 256 0) (by decide) rfl rfl).1 rfl
    exact ⟨h.1, h.2.2.1⟩⟩

/-- C9: two invocations of privateKeySigningCallback that differ only in the digest algorithm
hint behave identically: the hint argument never influences the result, which is determined by
the cached key type, the hash and the token oracle alone. -/
theorem privateKeySigningCallback_ignores_md_algorithm
    (o : P11SignOracle) (keyType a b : Nat) (hash buf0 : List Nat) :
    privateKeySigningCallback o keyType a hash buf0 =
      privateKeySigningCallback o keyType b hash buf0 := rfl

set_option maxRecDepth 10000 in
/-- C1 evaluated at a failing input: with a 257-byte hash (longer than the 256-byte working
buffer) and a token whose sign operations succeed, the RSA branch of privateKeySigningCallback
overwrites the sanity-check failure, invokes both C_SignInit and C_Sign and returns 0, and the
EC branch copies all 257 hash bytes into the 256-byte working buffer (overflowing it) even
though it then returns -1 without invoking the token. -/
theorem privateKeySigningCallback_overlong_hash_reaches_token :
    ((privateKeySigningCallback ⟨CKR_OK, CKR_OK, List.replicate 64 1, 64⟩ CKK_RSA 0
        (List.replicate 257 171) (List.replicate 256 0)).ret = 0 ∧
     (privateKeySigningCallback ⟨CKR_OK, CKR_OK, List.replicate 64 1, 64⟩ CKK_RSA 0
        (List.replicate 257 171) (List.replicate 256 0)).signInitCalled = true ∧
     (privateKeySigningCallback ⟨CKR_OK, CKR_OK, List.replicate 64 1, 64⟩ CKK_RSA 0
        (List.replicate 257 171) (List.replicate 256 0)).signCalled = true) ∧
    ((privateKeySigningCallback ⟨CKR_OK, CKR_OK, List.replicate 64 1, 64⟩ CKK_EC 0
        (List.replicate 257 171) (List.replicate 256 0)).ret = -1 ∧
     (privateKeySigningCallback ⟨CKR_OK, CKR_OK, List.replicate 64 1, 64⟩ CKK_EC 0
        (List.replicate 257 171) (List.replicate 256 0)).signInitCalled = false ∧
     (privateKeySigningCallback ⟨CKR_OK, CKR_OK, List.replicate 64 1, 64⟩ CKK_EC 0
        (List.replicate 257 171) (List.replicate 256 0)).toBeSigned.length = 257) := by
  decide

/-- C4: every tlsSetup failure (any stage of the pipeline reporting non-success) releases all
Session Context resources before the error is returned: the engine connection state, both
certificate chains and the configuration are freed and the token session is closed; and a
malformed trust anchor (root CA parse failure) is classified INVALID_CREDENTIALS. -/
theorem tlsSetup_failure_releases_resources
    (o : TlsSetupOracle) (m : Bool) (c : NetworkCredentials) :
    ((tlsSetup o m c).status ≠ TlsTransportStatus.SUCCESS →
      (tlsSetup o m c).sslFreed = true ∧ (tlsSetup o m c).rootCaFreed = true ∧
      (tlsSetup o m c).clientCertFreed = true ∧ (tlsSetup o m c).configFreed = true ∧
      (tlsSetup o m c).sessionClosed = true) ∧
    (o.configDefaultsRv = 0 → o.crtParseRv ≠ 0 →
      (tlsSetup o m c).status = TlsTransportStatus.INVALID_CREDENTIALS) := by
  constructor
  · intro h
    rw [tlsSetup_status_eq] at h
    have t := tlsSetup_teardown_eq o m c
    rw [t.1, t.2.1, t.2.2.1, t.2.2.2.1, t.2.2.2.2]
    simp [h]
  · intro h1 h2
    rw [tlsSetup_status_eq]
    simp [tlsSetupStatus, h1, h2]

/-- Witness for C4 at a concrete oracle whose trust-anchor parse fails. -/
theorem tlsSetup_failure_releases_resources_witness :
    (tlsSetup ⟨0, 1, ⟨0, true, 0, 0, 0, 1, 0, 0⟩, ⟨0, 1, 0, 8, true, 0, 0⟩, 0, 0, 0, []⟩ false
        ⟨false, false⟩).status = TlsTransportStatus.INVALID_CREDENTIALS ∧
    (tlsSetup ⟨0, 1, ⟨0, true, 0, 0, 0, 1, 0, 0⟩, ⟨0, 1, 0, 8, true, 0, 0⟩, 0, 0, 0, []⟩ false
        ⟨false, false⟩).sessionClosed = true := by
  have h := tlsSetup_failure_releases_resources
      ⟨0, 1, ⟨0, true, 0, 0, 0, 1, 0, 0⟩, ⟨0, 1, 0, 8, true, 0, 0⟩, 0, 0, 0, []⟩ false
      ⟨false, false⟩
  have h2 := h.2 rfl (by decide)
  exact ⟨h2, (h.1 (by rw [h2]; decide)).2.2.2.2⟩

/-- C5: the recv and send wrappers map the engine timeout and would-block results to 0, pass
positive byte counts through unchanged, and propagate every other negative engine result
unchanged as a negative, nonzero error. -/
theorem recv_send_result_mapping (r : Int) :
    ((r = MBEDTLS_ERR_SSL_TIMEOUT ∨ r = MBEDTLS_ERR_SSL_WANT_READ ∨
        r = MBEDTLS_ERR_SSL_WANT_WRITE) →
      TLS_FreeRTOS_recv r = 0 ∧ TLS_FreeRTOS_send r = 0) ∧
    (0 < r → TLS_FreeRTOS_recv r = r ∧ TLS_FreeRTOS_send r = r) ∧
    (r < 0 → r ≠ MBEDTLS_ERR_SSL_TIMEOUT → r ≠ MBEDTLS_ERR_SSL_WANT_READ →
      r ≠ MBEDTLS_ERR_SSL_WANT_WRITE →
      TLS_FreeRTOS_recv r = r ∧ TLS_FreeRTOS_recv r < 0 ∧
      TLS_FreeRTOS_send r = r ∧ TLS_FreeRTOS_send r < 0) := by
  refine ⟨?_, ?_, ?_⟩
  · rintro (rfl | rfl | rfl) <;> decide
  · intro h
    have ht : r ≠ MBEDTLS_ERR_SSL_TIMEOUT := by unfold MBEDTLS_ERR_SSL_TIMEOUT; omega
    have hr : r ≠ MBEDTLS_ERR_SSL_WANT_READ := by unfold MBEDTLS_ERR_SSL_WANT_READ; omega
    have hw : r ≠ MBEDTLS_ERR_SSL_WANT_WRITE := by unfold MBEDTLS_ERR_SSL_WANT_WRITE; omega
    simp [TLS_FreeRTOS_recv, TLS_FreeRTOS_send, ht, hr, hw]
  · intro h ht hr hw
    refine ⟨?_, ?_, ?_, ?_⟩ <;> simp [TLS_FreeRTOS_recv, TLS_FreeRTOS_send, ht, hr, hw] <;> omega

/-- Witness for C5 at the concrete engine result -1. -/
theorem recv_send_result_mapping_witness :
    ((-1 : Int) < 0) ∧
    (TLS_FreeRTOS_recv (-1) = -1 ∧ TLS_FreeRTOS_recv (-1) < 0 ∧
      TLS_FreeRTOS_send (-1) = -1 ∧ TLS_FreeRTOS_send (-1) < 0) :=
  ⟨by decide,
   (recv_send_result_mapping (-1)).2.2 (by decide) (by decide) (by decide) (by decide)⟩

/-- C6: TLS_FreeRTOS_Connect returns INVALID_PARAMETER, without attempting the transport
connection, whenever the network context, the hostname, the credentials or the trust-anchor
pointer is missing; returns CONNECT_FAILURE when Sockets_Connect fails; and on every failure
after the transport was opened it closes the socket before returning. -/
theorem connect_validation_and_socket_cleanup (inp : ConnectInput) (o : ConnectOracle) :
    ((inp.networkContextNull = true ∨ inp.hostNameNull = true ∨ inp.credentialsNull = true ∨
        inp.rootCaNull = true) →
      (TLS_FreeRTOS_Connect inp o).status = TlsTransportStatus.INVALID_PARAMETER ∧
      (TLS_FreeRTOS_Connect inp o).socketConnectCalled = false) ∧
    (inp.networkContextNull = false → inp.hostNameNull = false → inp.credentialsNull = false →
      inp.rootCaNull = false → o.socketsConnectRv ≠ 0 →
      (TLS_FreeRTOS_Connect inp o).status = TlsTransportStatus.CONNECT_FAILURE ∧
      (TLS_FreeRTOS_Connect inp o).socketOpened = false) ∧
    (inp.networkContextNull = false → inp.hostNameNull = false → inp.credentialsNull = false →
      inp.rootCaNull = false → o.socketsConnectRv = 0 →
      (TLS_FreeRTOS_Connect inp o).status ≠ TlsTransportStatus.SUCCESS →
      (TLS_FreeRTOS_Connect inp o).socketOpened = true ∧
      (TLS_FreeRTOS_Connect inp o).socketClosed = true) := by
  refine ⟨?_, ?_, ?_⟩
  · rintro (h | h | h | h) <;> simp [TLS_FreeRTOS_Connect, h]
  · intro h1 h2 h3 h4 h5
    simp [TLS_FreeRTOS_Connect, h1, h2, h3, h4, h5]
  · intro h1 h2 h3 h4 h5 h6
    simp only [TLS_FreeRTOS_Connect] at h6 ⊢
    simp [h1, h2, h3, h4, h5] at h6 ⊢
    simp [h6]

/-- Witness for C6 at a concrete failing Sockets_Connect call with all inputs present. -/
theorem connect_validation_and_socket_cleanup_witness :
    (0 : Int) < 5 ∧
    (TLS_FreeRTOS_Connect ⟨false, false, false, false, false, false⟩
        ⟨5, false, false,
          ⟨0, 0, ⟨0, true, 0, 0, 0, 1, 0, 0⟩, ⟨0, 1, 0, 8, true, 0, 0⟩, 0, 0, 0, []⟩⟩).status =
      TlsTransportStatus.CONNECT_FAILURE :=
  ⟨by decide,
   ((connect_validation_and_socket_cleanup ⟨false, false, false, false, false, false⟩
      ⟨5, false, false,
        ⟨0, 0, ⟨0, true, 0, 0, 0, 1, 0, 0⟩, ⟨0, 1, 0, 8, true, 0, 0⟩, 0, 0, 0, []⟩⟩).2.1
      rfl rfl rfl rfl (by decide)).1⟩

/-- C7: TLS_FreeRTOS_Disconnect always closes the transport socket, frees the engine state,
both certificate chains and the configuration, closes the token session and removes the
threading hooks, whatever the close-notify result; a would-block close-notify result is logged
as ignorable information, not as an error. -/
theorem disconnect_always_closes_and_frees (rv : Int) :
    (TLS_FreeRTOS_Disconnect rv).socketClosed = true ∧
    (TLS_FreeRTOS_Disconnect rv).sslFreed = true ∧
    (TLS_FreeRTOS_Disconnect rv).rootCaFreed = true ∧
    (TLS_FreeRTOS_Disconnect rv).clientCertFreed = true ∧
    (TLS_FreeRTOS_Disconnect rv).configFreed = true ∧
    (TLS_FreeRTOS_Disconnect rv).sessionClosed = true ∧
    (TLS_FreeRTOS_Disconnect rv).threadingAltFreed = true ∧
    ((rv = MBEDTLS_ERR_SSL_WANT_READ ∨ rv = MBEDTLS_ERR_SSL_WANT_WRITE) →
      (TLS_FreeRTOS_Disconnect rv).closeNotifyLog = CloseNotifyLog.wouldBlockInfo) := by
  refine ⟨rfl, rfl, rfl, rfl, rfl, rfl, rfl, ?_⟩
  rintro (rfl | rfl) <;> decide

/-- Witness for C7 at the concrete close-notify result WANT_READ. -/
theorem disconnect_always_closes_and_frees_witness :
    (TLS_FreeRTOS_Disconnect MBEDTLS_ERR_SSL_WANT_READ).socketClosed = true ∧
    (TLS_FreeRTOS_Disconnect MBEDTLS_ERR_SSL_WANT_READ).closeNotifyLog =
      CloseNotifyLog.wouldBlockInfo :=
  ⟨(disconnect_always_closes_and_frees MBEDTLS_ERR_SSL_WANT_READ).1,
   (disconnect_always_closes_and_frees MBEDTLS_ERR_SSL_WANT_READ).2.2.2.2.2.2.2 (Or.inl rfl)⟩

/-- C8: readCertificateIntoContext resolves the (label, class) pair and fails with
CKR_OBJECT_HANDLE_INVALID on a successful lookup that yields an invalid handle; probes the
object size with a null pValue and zero requested length; allocates a buffer of exactly the
reported size and fails with CKR_HOST_MEMORY when allocation fails; re-issues the read when
allocation succeeded; returns a nonzero result when certificate parsing fails, which tlsSetup
classifies as INVALID_CREDENTIALS; and releases the temporary buffer on every exit path. -/
theorem readCertificateIntoContext_six_step_contract (o : ReadCertOracle) :
    (o.findRv = CKR_OK → o.findHandle = CK_INVALID_HANDLE →
      (readCertificateIntoContext o).result = CKR_OBJECT_HANDLE_INVALID) ∧
    (o.findRv = CKR_OK → o.findHandle ≠ CK_INVALID_HANDLE →
      (readCertificateIntoContext o).probeArgs = some (true, 0)) ∧
    (o.findRv = CKR_OK → o.findHandle ≠ CK_INVALID_HANDLE → o.probeRv = CKR_OK →
      (readCertificateIntoContext o).mallocCalled = true ∧
      (readCertificateIntoContext o).mallocSize = o.probeSize ∧
      (o.mallocOk = false → (readCertificateIntoContext o).result = CKR_HOST_MEMORY) ∧
      (o.mallocOk = true → (readCertificateIntoContext o).fillCalled = true)) ∧
    (o.findRv = CKR_OK → o.findHandle ≠ CK_INVALID_HANDLE → o.probeRv = CKR_OK →
      o.mallocOk = true → o.fillRv = CKR_OK → o.parseRv ≠ 0 →
      -(2 ^ 31) ≤ o.parseRv → o.parseRv < 2 ^ 31 →
      (readCertificateIntoContext o).result ≠ CKR_OK) ∧
    (readCertificateIntoContext o).bufferFreed = true ∧
    (∀ (s : TlsSetupOracle) (m : Bool) (c : NetworkCredentials),
      s.configDefaultsRv = 0 → s.crtParseRv = 0 →
      initializeClientKeys s.clientKeys = CKR_OK →
      (readCertificateIntoContext s.readCert).result ≠ CKR_OK →
      (tlsSetup s m c).status = TlsTransportStatus.INVALID_CREDENTIALS) := by
  refine ⟨?_, ?_, ?_, ?_, rfl, ?_⟩
  · intro h1 h2
    simp [readCertificateIntoContext, h1, h2, CKR_OK, CKR_OBJECT_HANDLE_INVALID]
  · intro h1 h2
    simp [readCertificateIntoContext, h1, h2, CKR_OK]
  · intro h1 h2 h3
    refine ⟨?_, rfl, ?_, ?_⟩ <;>
      simp [readCertificateIntoContext, h1, h2, h3, CKR_OK, CKR_HOST_MEMORY] <;>
      intro hm <;> simp [hm]
  · intro h1 h2 h3 h4 h5 h6 h7 h8
    simp [readCertificateIntoContext, h1, h2, h3, h4, h5, CKR_OK, CKR_HOST_MEMORY]
    omega
  · intro s m c hc hp hk hr
    have hr0 : (readCertificateIntoContext s.readCert).result ≠ 0 := by
      simpa [CKR_OK] using hr
    rw [tlsSetup_status_eq]
    simp [tlsSetupStatus, hc, hp, hk, hr0, CKR_OK]

/-- Witness for C8 at a concrete oracle whose lookup succeeds with an invalid handle. -/
theorem readCertificateIntoContext_six_step_contract_witness :
    (readCertificateIntoContext ⟨CKR_OK, CK_INVALID_HANDLE, 0, 0, true, 0, 0⟩).result =
      CKR_OBJECT_HANDLE_INVALID ∧
    (readCertificateIntoContext ⟨CKR_OK, CK_INVALID_HANDLE, 0, 0, true, 0, 0⟩).bufferFreed =
      true :=
  ⟨(readCertificateIntoContext_six_step_contract
      ⟨CKR_OK, CK_INVALID_HANDLE, 0, 0, true, 0, 0⟩).1 rfl rfl,
   (readCertificateIntoContext_six_step_contract
      ⟨CKR_OK, CK_INVALID_HANDLE, 0, 0, true, 0, 0⟩).2.2.2.2.1⟩

/-- C10: every TLS_FreeRTOS_Connect call that passes input validation and the transport
connection installs the process-wide threading hooks via initMbedtls, and no failure path in
connect removes them (even when tlsSetup then fails); only TLS_FreeRTOS_Disconnect removes
them. -/
theorem connect_installs_threading_hooks (inp : ConnectInput) (o : ConnectOracle) (d : Int) :
    inp.networkContextNull = false → inp.hostNameNull = false → inp.credentialsNull = false →
    inp.rootCaNull = false → o.socketsConnectRv = 0 →
    (TLS_FreeRTOS_Connect inp o).threadingAltInstalled = true ∧
    (TLS_FreeRTOS_Connect inp o).threadingAltFreed = false ∧
    (TLS_FreeRTOS_Disconnect d).threadingAltFreed = true := by
  intro h1 h2 h3 h4 h5
  refine ⟨?_, rfl, rfl⟩
  simp [TLS_FreeRTOS_Connect, h1, h2, h3, h4, h5]

/-- Witness for C10 at a concrete connect whose setup fails on the trust anchor and a concrete
disconnect. -/
theorem connect_installs_threading_hooks_witness :
    (TLS_FreeRTOS_Connect ⟨false, false, false, false, false, false⟩
        ⟨0, false, false,
          ⟨0, 1, ⟨0, true, 0, 0, 0, 1, 0, 0⟩, ⟨0, 1, 0, 8, true, 0, 0⟩, 0, 0, 0,
            []⟩⟩).threadingAltInstalled = true ∧
    (TLS_FreeRTOS_Connect ⟨false, false, false, false, false, false⟩
        ⟨0, false, false,
          ⟨0, 1, ⟨0, true, 0, 0, 0, 1, 0, 0⟩, ⟨0, 1, 0, 8, true, 0, 0⟩, 0, 0, 0,
            []⟩⟩).threadingAltFreed = false ∧
    (TLS_FreeRTOS_Disconnect 0).threadingAltFreed = true :=
  connect_installs_threading_hooks ⟨false, false, false, false, false, false⟩
    ⟨0, false, false, ⟨0, 1, ⟨0, true, 0, 0, 0, 1, 0, 0⟩, ⟨0, 1, 0, 8, true, 0, 0⟩, 0, 0, 0, []⟩⟩
    0 rfl rfl rfl rfl rfl

end TlsFreertos
